import Mathlib

/-!
Verification development for the auto-trade engine.

This file gives a shallow embedding, in Lean 4, of the decision-and-execution
core of the trading bot: the risk manager (src/risk/risk_manager.py), the
portfolio ledger (src/risk/portfolio_manager.py), the order lifecycle manager
(src/execution/order_manager.py), the composite KDJ+MACD strategy
(src/strategies/kdj_macd_strategy.py, src/strategies/base_strategy.py) and the
relevant pieces of the control loop (main.py).

Conventions of the embedding:
  * Python floats are modelled as rationals (ℚ); all the branch conditions
    relevant to the claims below are exact at the inputs considered, so the
    rational model agrees with the float execution on them.
  * Python dicts keyed by strings are modelled as association lists with
    first-match lookup and replace-in-place insertion, which matches dict
    semantics as long as keys are unique (python dicts keep one entry per
    key; replace-in-place keeps the original insertion order, as dicts do).
  * Stateful methods become explicit state-passing functions; a method that
    can raise returns the state reached so far together with an optional
    error, mirroring the position of the `raise` in the source.
  * Timestamps, logging and callbacks have no effect on the state the claims
    talk about and are dropped.
-/

namespace AutoTrade

/-! ## Association-list model of python dicts -/

/-- First-match lookup, `d.get(k)` / `k in d`. -/
def dictGet? {α : Type} : List (String × α) → String → Option α
  | [], _ => none
  | (k', v') :: rest, k => if k' = k then some v' else dictGet? rest k

/-- `k in d`. -/
def dictHasKey {α : Type} (l : List (String × α)) (k : String) : Bool :=
  (dictGet? l k).isSome

/-- `d[k] = v`: replace the entry in place if the key is present, else append. -/
def dictSet {α : Type} : List (String × α) → String → α → List (String × α)
  | [], k, v => [(k, v)]
  | (k', v') :: rest, k, v =>
    if k' = k then (k, v) :: rest else (k', v') :: dictSet rest k v

/-- `del d[k]` (removes every entry with the key; on unique keys this is
python's behaviour). -/
def dictErase {α : Type} : List (String × α) → String → List (String × α)
  | [], _ => []
  | (k', v') :: rest, k =>
    if k' = k then dictErase rest k else (k', v') :: dictErase rest k

/-- `base.update(patch)` — python `dict.update`. -/
def dictUpdate {α : Type} (base patch : List (String × α)) : List (String × α) :=
  patch.foldl (fun acc kv => dictSet acc kv.1 kv.2) base

/-! ## Risk manager — src/risk/risk_manager.py -/

/-- The configuration slice of `RiskManager.__init__` that
`calculate_position_size` reads. -/
structure RiskConfig where
  maxRiskPerTrade : ℚ
  maxTotalRisk : ℚ
  maxDrawdown : ℚ
  maxPositionSize : ℚ
deriving DecidableEq

/-- The configuration the bot passes to `RiskManager` in
`TradingBot.initialize` (main.py lines 242-250): max_risk_per_trade 0.02,
max_total_risk 0.06, max_drawdown 0.10, max_position_size 0.5. -/
def botRiskConfig : RiskConfig :=
  { maxRiskPerTrade := 1/50, maxTotalRisk := 3/50
    maxDrawdown := 1/10, maxPositionSize := 1/2 }

/-- `RiskManager.calculate_position_size` (risk_manager.py lines 89-132),
reading `self.account_balance` and `self.total_risk` as explicit arguments.
Returns `(position_size, risk_per_trade)`. -/
def calculatePositionSize (cfg : RiskConfig) (accountBalance totalRisk : ℚ)
    (entryPrice stopLossPrice confidence : ℚ) : ℚ × ℚ :=
  let riskPerTrade := accountBalance * cfg.maxRiskPerTrade * confidence
  let priceRisk := |entryPrice - stopLossPrice|
  if priceRisk = 0 then (0, 0)
  else
    -- the total-risk clip (lines 116-124) reassigns `position_size` and
    -- `risk_per_trade` in parallel, under the same branch conditions
    let availableRisk := accountBalance * cfg.maxTotalRisk - totalRisk
    let positionSize1 :=
      if totalRisk + riskPerTrade > accountBalance * cfg.maxTotalRisk then
        if availableRisk > 0 then availableRisk / priceRisk else 0
      else riskPerTrade / priceRisk
    let riskPerTrade1 :=
      if totalRisk + riskPerTrade > accountBalance * cfg.maxTotalRisk then
        if availableRisk > 0 then availableRisk else 0
      else riskPerTrade
    let maxPositionValue := accountBalance * cfg.maxPositionSize
    if positionSize1 * entryPrice > maxPositionValue then
      (maxPositionValue / entryPrice, maxPositionValue / entryPrice * priceRisk)
    else (positionSize1, riskPerTrade1)

/-- The per-position risk record stored by `RiskManager.add_position`
(the fields of `PositionRisk` that the tracked-risk claims read). -/
structure PosRisk where
  positionSize : ℚ
  entryPrice : ℚ
  currentPrice : ℚ
  unrealizedPnl : ℚ
  riskAmount : ℚ
  riskPercentage : ℚ
deriving DecidableEq

/-- The mutable state of `RiskManager` touched by `update_account_balance`,
`add_position` and `remove_position`. -/
structure RMState where
  accountBalance : ℚ
  totalRisk : ℚ
  positions : List (String × PosRisk)
  maxBalance : ℚ
  currentDrawdown : ℚ
deriving DecidableEq

/-- `RiskManager.__init__` state (balance 0, no risk, no positions). -/
def rmInit : RMState :=
  { accountBalance := 0, totalRisk := 0, positions := []
    maxBalance := 0, currentDrawdown := 0 }

/-- `RiskManager.update_account_balance` (lines 79-87). -/
def rmUpdateAccountBalance (s : RMState) (balance : ℚ) : RMState :=
  let maxB := if balance > s.maxBalance then balance else s.maxBalance
  { s with
    accountBalance := balance
    maxBalance := maxB
    currentDrawdown := if maxB > 0 then (maxB - balance) / maxB else s.currentDrawdown }

/-- `RiskManager.add_position` (lines 177-201); `side` is `"buy"` or `"sell"`.
The source computes `risk_percentage = risk_amount / self.account_balance`;
with a zero balance the rational model takes the value
`risk_amount / 0 = 0` (the claims proved below never read this field). -/
def rmAddPosition (s : RMState) (symbol side : String)
    (size entryPrice stopLoss : ℚ) : RMState :=
  let priceRisk := |entryPrice - stopLoss|
  let riskAmount := size * priceRisk
  { s with
    totalRisk := s.totalRisk + riskAmount
    positions := dictSet s.positions symbol
      { positionSize := if side = "buy" then size else -size
        entryPrice := entryPrice
        currentPrice := entryPrice
        unrealizedPnl := 0
        riskAmount := riskAmount
        riskPercentage := riskAmount / s.accountBalance } }

/-- `RiskManager.remove_position` (lines 228-254): a no-op when the symbol is
untracked; otherwise subtracts the stored `risk_amount` from the total and
deletes the entry (trade history and daily pnl are not modelled). -/
def rmRemovePosition (s : RMState) (symbol : String) : RMState :=
  match dictGet? s.positions symbol with
  | none => s
  | some p =>
    { s with
      totalRisk := s.totalRisk - p.riskAmount
      positions := dictErase s.positions symbol }

/-- The state-mutating calls the tracked-risk claim quantifies over. -/
inductive RMOp where
  | updateBalance (balance : ℚ)
  | addPosition (symbol side : String) (size entryPrice stopLoss : ℚ)
  | removePosition (symbol : String)
deriving DecidableEq

/-- One call. -/
def rmStep (s : RMState) : RMOp → RMState
  | .updateBalance b => rmUpdateAccountBalance s b
  | .addPosition sym side size entry stop => rmAddPosition s sym side size entry stop
  | .removePosition sym => rmRemovePosition s sym

/-- A sequence of calls. -/
def rmRun (s : RMState) : List RMOp → RMState
  | [] => s
  | op :: rest => rmRun (rmStep s op) rest

/-- Sum of `risk_amount` over the tracked positions. -/
def rmSumRisk (positions : List (String × PosRisk)) : ℚ :=
  (positions.map (fun kv => kv.2.riskAmount)).sum

/-- Whether one call respects the one-position-per-symbol discipline:
`add_position` is only admitted for a symbol that is not currently tracked. -/
def rmOpOk (s : RMState) : RMOp → Bool
  | .addPosition sym _ _ _ _ => !dictHasKey s.positions sym
  | _ => true

/-- Traces in which `add_position` is only called for a symbol that is not
currently tracked (the bookkeeping discipline under which the cumulative-risk
invariant is preserved). -/
def rmGoodTrace (s : RMState) : List RMOp → Bool
  | [] => true
  | op :: rest => rmOpOk s op && rmGoodTrace (rmStep s op) rest

/-- The keys of an association list. -/
def dictKeys {α : Type} (l : List (String × α)) : List String :=
  l.map Prod.fst

/-- Distinct keys — every state reachable by the python code from an empty
dict satisfies this. -/
def NodupKeys {α : Type} (l : List (String × α)) : Prop :=
  (dictKeys l).Nodup

/-- A double add of the same symbol: the trace violating the cumulative-risk
invariant. -/
def rmDoubleAddTrace : List RMOp :=
  [.updateBalance 10000,
   .addPosition "BTC-USDT-SWAP" "buy" 1 50000 49000,
   .addPosition "BTC-USDT-SWAP" "buy" 1 50000 49000]

/-- A trace that respects the one-add-per-tracked-symbol discipline. -/
def rmGoodExampleTrace : List RMOp :=
  [.updateBalance 10000,
   .addPosition "BTC-USDT-SWAP" "buy" 1 50000 49000,
   .addPosition "ETH-USDT-SWAP" "sell" 2 3000 3100,
   .removePosition "BTC-USDT-SWAP",
   .addPosition "BTC-USDT-SWAP" "buy" 2 40000 39500,
   .removePosition "SOL-USDT-SWAP",
   .updateBalance 9000]

/-! ## Portfolio ledger — src/risk/portfolio_manager.py -/

/-- One entry of `PortfolioManager.positions`.  A buy stores
`{'qty': ..., 'avg_price': ...}` (dropping any `last_price` key), so the
mark price is optional. -/
structure PosInfo where
  qty : ℤ
  avgPrice : ℚ
  lastPrice : Option ℚ
deriving DecidableEq

/-- The state of `PortfolioManager`: initial cash, cash, positions and the
cached total value (`max_risk_per_trade` is read only by its own
`calculate_position_size`, which no claim touches). -/
structure PMState where
  initialCash : ℚ
  cash : ℚ
  positions : List (String × PosInfo)
  totalValue : ℚ
deriving DecidableEq

/-- `PortfolioManager.__init__`. -/
def pmInit (initialCash : ℚ) : PMState :=
  { initialCash := initialCash, cash := initialCash
    positions := [], totalValue := initialCash }

/-- `info.get('last_price', info['avg_price'])`. -/
def posMarkPrice (info : PosInfo) : ℚ :=
  info.lastPrice.getD info.avgPrice

/-- The holdings summation of `PortfolioManager._recalculate_total_value`. -/
def pmHoldingsValue (positions : List (String × PosInfo)) : ℚ :=
  (positions.map (fun kv => (kv.2.qty : ℚ) * posMarkPrice kv.2)).sum

/-- `PortfolioManager._recalculate_total_value`. -/
def pmRecalcTotalValue (s : PMState) : PMState :=
  { s with totalValue := s.cash + pmHoldingsValue s.positions }

/-- `PortfolioManager.update_price`. -/
def pmUpdatePrice (s : PMState) (symbol : String) (price : ℚ) : PMState :=
  pmRecalcTotalValue <|
    match dictGet? s.positions symbol with
    | some info =>
      { s with positions := dictSet s.positions symbol { info with lastPrice := some price } }
    | none => s

/-- `PortfolioManager.execute_order` (lines 58-89).  Returns the state
reached together with the error raised, if any; the state accompanying an
error reflects exactly the mutations performed before the `raise`.  The
buy branch decrements cash (line 71) before computing the new weighted
average (line 76), whose division by `new_qty` raises ZeroDivisionError
when `old_qty + qty = 0`; that raise therefore leaves the decremented cash
behind.  All other raises precede every mutation. -/
def pmExecuteOrder (s : PMState) (symbol : String) (qty : ℤ) (price : ℚ)
    (side : String) : PMState × Option String :=
  if side = "buy" then
    let cost := (qty : ℚ) * price
    if cost > s.cash then (s, some "cash insufficient, cannot buy")
    else
      let s1 := { s with cash := s.cash - cost }
      match dictGet? s1.positions symbol with
      | some info =>
        if info.qty + qty = 0 then (s1, some "ZeroDivisionError")
        else
          let newQty := info.qty + qty
          let newAvg := ((info.qty : ℚ) * info.avgPrice + (qty : ℚ) * price) / (newQty : ℚ)
          (pmRecalcTotalValue
            { s1 with positions :=
                dictSet s1.positions symbol (PosInfo.mk newQty newAvg none) }, none)
      | none =>
        (pmRecalcTotalValue
          { s1 with positions :=
              dictSet s1.positions symbol (PosInfo.mk qty price none) }, none)
  else if side = "sell" then
    match dictGet? s.positions symbol with
    | none => (s, some "position insufficient, cannot sell")
    | some info =>
      if info.qty < qty then (s, some "position insufficient, cannot sell")
      else
        let info1 : PosInfo := { info with qty := info.qty - qty }
        let s1 := { s with
          positions := dictSet s.positions symbol info1
          cash := s.cash + (qty : ℚ) * price }
        let s2 :=
          if info1.qty = 0 then { s1 with positions := dictErase s1.positions symbol }
          else s1
        (pmRecalcTotalValue s2, none)
  else (s, some "side must be buy or sell")

/-- Buy-side insufficient-cash raise condition. -/
def buyInsufficientCash (s : PMState) (qty : ℤ) (price : ℚ) : Prop :=
  (qty : ℚ) * price > s.cash

/-- The buy-side ZeroDivisionError condition: cash suffices, the symbol is
tracked and the order exactly cancels the held quantity. -/
def buyZeroDivision (s : PMState) (symbol : String) (qty : ℤ) (price : ℚ) : Prop :=
  ¬buyInsufficientCash s qty price ∧
  ∃ info, dictGet? s.positions symbol = some info ∧ info.qty + qty = 0

/-- Sell-side insufficient-position raise condition. -/
def sellInsufficientPosition (s : PMState) (symbol : String) (qty : ℤ) : Prop :=
  dictGet? s.positions symbol = none ∨
  ∃ info, dictGet? s.positions symbol = some info ∧ info.qty < qty

/-- A ledger holding 5 units of one symbol with 100 cash — the state on
which a buy of -5 units raises ZeroDivisionError after mutating cash. -/
def pmZeroDivState : PMState :=
  { initialCash := 100, cash := 100
    positions := [("BTC-USDT-SWAP", ⟨5, 10, none⟩)], totalValue := 150 }

/-! ## Order lifecycle manager — src/execution/order_manager.py -/

/-- `OrderStatus`. -/
inductive OrderStatus where
  | pending
  | submitted
  | partiallyFilled
  | filled
  | cancelled
  | rejected
  | expired
deriving DecidableEq

/-- The terminal statuses of `_check_order_status` (line 583). -/
def OrderStatus.isTerminal : OrderStatus → Bool
  | .filled | .cancelled | .rejected | .expired => true
  | _ => false

/-- `OrderSide`. -/
inductive OrderSide where
  | buy
  | sell
deriving DecidableEq

/-- `OrderType`. -/
inductive OrderType where
  | market
  | limit
  | stop
  | stopLimit
  | trailingStop
deriving DecidableEq

/-- `OrderSide(side)` on a validated side string. -/
def orderSideOfString (side : String) : OrderSide :=
  if side = "buy" then .buy else .sell

/-- `OrderType(order_type)` on a validated type string. -/
def orderTypeOfString (otype : String) : OrderType :=
  if otype = "market" then .market
  else if otype = "limit" then .limit
  else if otype = "stop" then .stop
  else .stopLimit

/-- The fields of the `Order` dataclass the lifecycle claims read
(timestamps, client id and metadata dropped). -/
structure Order where
  orderId : String
  symbol : String
  side : OrderSide
  orderType : OrderType
  price : Option ℚ
  size : ℚ
  status : OrderStatus
  filledSize : ℚ
  filledPrice : ℚ
  fee : ℚ
  exchangeOrderId : String
deriving DecidableEq

/-- The counters of `OrderManager.stats` the claims can observe. -/
structure OMStats where
  totalOrders : ℕ
  successfulOrders : ℕ
  failedOrders : ℕ
  cancelledOrders : ℕ
  totalFees : ℚ
deriving DecidableEq

/-- The state of `OrderManager`, together with the Portfolio Ledger it
holds a reference to. -/
structure OMState where
  activeOrders : List (String × Order)
  orderHistory : List Order
  stats : OMStats
  portfolio : PMState
deriving DecidableEq

/-- `OrderManager.__init__` state over a given portfolio ledger. -/
def omInit (pm : PMState) : OMState :=
  { activeOrders := [], orderHistory := []
    stats := ⟨0, 0, 0, 0, 0⟩, portfolio := pm }

/-- `OrderManager._validate_order` (lines 439-461): `none` means valid. -/
def validateOrder (symbol side otype : String) (size : ℚ) (price : Option ℚ) :
    Option String :=
  -- `not symbol or not symbol.strip()`: empty or all-whitespace symbol
  if symbol.data.all Char.isWhitespace then some "symbol must not be empty"
  else if side ≠ "buy" ∧ side ≠ "sell" then some "side must be buy or sell"
  else if otype ≠ "market" ∧ otype ≠ "limit" ∧ otype ≠ "stop" ∧ otype ≠ "stop_limit" then
    some "order type unsupported"
  else if size ≤ 0 then some "size must be positive"
  else if (otype = "limit" ∨ otype = "stop" ∨ otype = "stop_limit") ∧ price = none then
    some "limit orders require a price"
  else
    match price with
    | some p => if p ≤ 0 then some "price must be positive" else none
    | none => none

/-- `OrderManager.create_order` (lines 145-205).  The collaborator calls
`risk_manager.check_order_risk` and `portfolio_manager.can_open_position`
are duck-typed; their verdicts enter as the booleans `riskAllowed` and
`portfolioAllowed` (neither method exists on the deployed `RiskManager` /
`PortfolioManager` classes, where the calls raise AttributeError, so with
those collaborators `create_order` always raises once validation passes).
`oid` is the generated (or caller-provided) client order id. -/
def createOrder (s : OMState) (symbol side otype : String) (size : ℚ)
    (price : Option ℚ) (oid : String) (riskAllowed portfolioAllowed : Bool) :
    Except String OMState :=
  match validateOrder symbol side otype size price with
  | some e => .error e
  | none =>
    if !riskAllowed then .error "risk check failed"
    else if !portfolioAllowed then .error "funds check failed"
    else
      .ok { s with
        activeOrders := dictSet s.activeOrders oid
          { orderId := oid, symbol := symbol
            side := orderSideOfString side, orderType := orderTypeOfString otype
            price := price, size := size, status := .pending
            filledSize := 0, filledPrice := 0, fee := 0, exchangeOrderId := "" }
        stats := { s.stats with totalOrders := s.stats.totalOrders + 1 } }

/-- `OrderManager.submit_order` (lines 207-272).  The gateway outcome of
`_submit_to_exchange` enters as `gw` (`.ok exchangeOrderId` on success,
`.error msg` on failure).  Returns the state and the `success` flag of the
returned `OrderResult`.  On an unknown id the state is untouched; otherwise
the order's status is first set to SUBMITTED (line 227) and then, according
to the gateway outcome, confirmed SUBMITTED with the exchange id recorded,
or set to REJECTED — in both cases the order stays in `active_orders` and
nothing is appended to `order_history`. -/
def submitOrder (s : OMState) (oid : String) (gw : Except String String) :
    OMState × Bool :=
  match dictGet? s.activeOrders oid with
  | none => (s, false)
  | some o =>
    match gw with
    | .ok exchId =>
      ({ s with
        activeOrders := dictSet s.activeOrders oid
          { o with status := .submitted, exchangeOrderId := exchId }
        stats := { s.stats with successfulOrders := s.stats.successfulOrders + 1 } },
       true)
    | .error _ =>
      ({ s with
        activeOrders := dictSet s.activeOrders oid { o with status := .rejected }
        stats := { s.stats with failedOrders := s.stats.failedOrders + 1 } },
       false)

/-- `OrderManager._map_exchange_status` (lines 599-609). -/
def mapExchangeStatus (st : String) : OrderStatus :=
  if st = "live" then .submitted
  else if st = "partially_filled" then .partiallyFilled
  else if st = "filled" then .filled
  else if st = "cancelled" then .cancelled
  else if st = "rejected" then .rejected
  else if st = "expired" then .expired
  else .submitted

/-- The payload of a successful `get_order` poll. -/
structure ExchOrderData where
  state : String
  fillSz : ℚ
  avgPx : ℚ
  fee : ℚ
deriving DecidableEq

/-- `OrderManager._update_portfolio` (lines 626-651).  The source calls
`portfolio_manager.open_position` (buy) or `portfolio_manager.close_position`
(sell); `PortfolioManager` (src/risk/portfolio_manager.py) defines neither
method — its fill-application operation is `execute_order` — so both calls
raise AttributeError, which the surrounding `try/except` swallows after
logging.  The net effect on the ledger is therefore no change at all. -/
def omUpdatePortfolio (pm : PMState) (_o : Order) : PMState :=
  pm

/-- `OrderManager._check_order_status` (lines 553-597) for one active order,
with the poll outcome of `api_client.get_order` passed as `poll` (`none`
covers both a failed result and a raised exception, each of which leaves
the state untouched until the next monitor tick). -/
def checkOrderStatus (s : OMState) (oid : String) (poll : Option ExchOrderData) :
    OMState :=
  match dictGet? s.activeOrders oid with
  | none => s
  | some o =>
    if o.exchangeOrderId = "" then s
    else
      match poll with
      | none => s
      | some dataE =>
        let newStatus := mapExchangeStatus dataE.state
        if newStatus = o.status then s
        else
          let isFill := newStatus = .partiallyFilled ∨ newStatus = .filled
          let o1 : Order :=
            if isFill then
              { o with
                status := newStatus
                filledSize := dataE.fillSz
                filledPrice := dataE.avgPx
                fee := dataE.fee }
            else { o with status := newStatus }
          let stats1 :=
            if isFill then
              { s.stats with totalFees := s.stats.totalFees + dataE.fee }
            else s.stats
          if newStatus.isTerminal then
            let s1 := { s with
              activeOrders := dictErase s.activeOrders oid
              orderHistory := s.orderHistory ++ [o1]
              stats := stats1 }
            if newStatus = .filled then
              { s1 with portfolio := omUpdatePortfolio s1.portfolio o1 }
            else s1
          else
            { s with activeOrders := dictSet s.activeOrders oid o1, stats := stats1 }

/-- A PENDING order as stored by `create_order`. -/
def pendingOrder : Order :=
  { orderId := "order1", symbol := "BTC-USDT-SWAP", side := .buy
    orderType := .market, price := none, size := 1, status := .pending
    filledSize := 0, filledPrice := 0, fee := 0, exchangeOrderId := "" }

/-- An order-manager state holding the single PENDING order above. -/
def omOneOrderState : OMState :=
  { activeOrders := [("order1", pendingOrder)], orderHistory := []
    stats := ⟨1, 0, 0, 0, 0⟩, portfolio := pmInit 10000 }

/-- `create_order` immediately followed by `submit_order` on a failing
gateway, from a fresh manager over a 10000-cash ledger. -/
def omSubmitFailScenario : OMState × Bool :=
  match createOrder (omInit (pmInit 10000)) "BTC-USDT-SWAP" "buy" "market" 1
      none "order1" true true with
  | .ok s1 => submitOrder s1 "order1" (.error "network error")
  | .error _ => (omInit (pmInit 10000), true)

/-- A SUBMITTED buy order awaiting its exchange fill. -/
def submittedOrder : Order :=
  { orderId := "order2", symbol := "BTC-USDT-SWAP", side := .buy
    orderType := .market, price := none, size := 1, status := .submitted
    filledSize := 0, filledPrice := 0, fee := 0, exchangeOrderId := "exch-1" }

/-- An order-manager state holding the single SUBMITTED order above. -/
def omMonitorState : OMState :=
  { activeOrders := [("order2", submittedOrder)], orderHistory := []
    stats := ⟨1, 1, 0, 0, 0⟩, portfolio := pmInit 10000 }

/-- A `get_order` poll reporting the order fully filled at price 50000. -/
def filledPoll : ExchOrderData :=
  { state := "filled", fillSz := 1, avgPx := 50000, fee := 1 }

/-! ## The 25% capital-loss breaker — main.py `_monitoring_loop` -/

/-- The portfolio-level capital-loss breaker of `TradingBot._monitoring_loop`
(main.py lines 1142-1166): it reads `pnl_ratio` from the portfolio status
and, when `pnl_ratio <= -0.25` while the bot is running, stops trading and
emits the critical event.  This predicate is whether `stop()` is invoked. -/
def breakerTriggered (pnlRat : ℚ) (isRunning : Bool) : Bool :=
  decide (pnlRat ≤ -(1/4)) && isRunning

/-! ## Composite KDJ+MACD strategy — src/strategies/kdj_macd_strategy.py -/

/-- `SignalType` (base_strategy.py). -/
inductive SignalType where
  | buy
  | sell
  | hold
deriving DecidableEq

/-- The fields of `MarketData` that `KDJMACDStrategy.analyze` reads. -/
structure MarketBar where
  symbol : String
  high : ℚ
  low : ℚ
  close : ℚ
deriving DecidableEq

/-- The `"kdj"` sub-config. -/
structure KDJParams where
  period : ℕ
  kSmooth : ℕ
  dSmooth : ℕ
  oversold : ℚ
  overbought : ℚ
deriving DecidableEq

/-- The `"macd"` sub-config (`signal` is the signal-line EMA span). -/
structure MACDParams where
  fast : ℕ
  slow : ℕ
  signalPeriod : ℕ
deriving DecidableEq

/-- The composite strategy's parameter set. -/
structure KDJMACDParams where
  kdj : KDJParams
  macd : MACDParams
  minConfidence : ℚ
  stopLoss : ℚ
  takeProfit : ℚ
deriving DecidableEq

/-- The parameters the bot's `_register_strategies` config produces after
`KDJMACDStrategy.__init__` merges it over the defaults (main.py lines
374-388; kdj_macd_strategy.py lines 33-57). -/
def botCompositeParams : KDJMACDParams :=
  { kdj := { period := 9, kSmooth := 3, dSmooth := 3, oversold := 20, overbought := 80 }
    macd := { fast := 5, slow := 13, signalPeriod := 4 }
    minConfidence := 11/20, stopLoss := 1/50, takeProfit := 1/25 }

/-- The per-instance mutable state of `KDJMACDStrategy`. -/
structure KDJMACDState where
  params : KDJMACDParams
  closeHistory : List ℚ
  highHistory : List ℚ
  lowHistory : List ℚ
  prevK : ℚ
  prevD : ℚ
  lastK : ℚ
  lastD : ℚ
  lastJ : ℚ
  lastMacd : ℚ
  lastSignalLine : ℚ
  lastHist : ℚ
  isActive : Bool
  position : ℚ
  entryPrice : ℚ
deriving DecidableEq

/-- `max_history_size`. -/
def maxHistorySize : ℕ := 500

/-- Append one value and `pop(0)` beyond the cap (`_update_history`). -/
def pushBounded (l : List ℚ) (x : ℚ) : List ℚ :=
  let l1 := l ++ [x]
  if l1.length > maxHistorySize then l1.tail else l1

/-- `KDJMACDStrategy._update_history`. -/
def updateHistory (s : KDJMACDState) (bar : MarketBar) : KDJMACDState :=
  { s with
    closeHistory := pushBounded s.closeHistory bar.close
    highHistory := pushBounded s.highHistory bar.high
    lowHistory := pushBounded s.lowHistory bar.low }

/-- `series.iloc[-1]` on a nonempty series (0 as a harmless total default). -/
def listLast (l : List ℚ) : ℚ :=
  l.getLast?.getD 0

/-- `series.iloc[-period:].min()`. -/
def listMinLast (l : List ℚ) (p : ℕ) : ℚ :=
  match l.drop (l.length - p) with
  | [] => 0
  | x :: xs => xs.foldl min x

/-- `series.iloc[-period:].max()`. -/
def listMaxLast (l : List ℚ) (p : ℕ) : ℚ :=
  match l.drop (l.length - p) with
  | [] => 0
  | x :: xs => xs.foldl max x

/-- The values `_compute_kdj` returns. -/
structure KDJValues where
  k : ℚ
  d : ℚ
  j : ℚ
  rsv : ℚ
deriving DecidableEq

/-- `KDJMACDStrategy._compute_kdj` (lines 124-159), in the recursive
formulation of lines 156-159.  The `talib` branch is guarded by
`talib is not None`, and the module's import of talib is itself wrapped in
`try/except` with `talib = None` as the fallback; the embedding models the
talib-absent execution.  The short-history branch (line 128) returns the
previous values and no `rsv` key (`kdj_vals.get("rsv", 0.0)` then defaults
it to 0, which is how the embedding fills the field). -/
def computeKdj (s : KDJMACDState) : KDJValues :=
  let period := s.params.kdj.period
  if s.closeHistory.length < period then
    { k := s.prevK, d := s.prevD, j := 3 * s.prevK - 2 * s.prevD, rsv := 0 }
  else
    let ll := listMinLast s.lowHistory period
    let hh := listMaxLast s.highHistory period
    let c := listLast s.closeHistory
    let rsv := if hh = ll then 0 else (c - ll) / (hh - ll) * 100
    let k := (2/3) * s.prevK + (1/3) * rsv
    let d := (2/3) * s.prevD + (1/3) * k
    { k := k, d := d, j := 3 * k - 2 * d, rsv := rsv }

/-- pandas `Series.ewm(span=w).mean()` with the default `adjust=True` — the
EMA of `calculate_ema` (base_strategy.py line 236): the i-th output is the
(1-α)-weighted average of the first i+1 inputs, α = 2/(span+1), maintained
here through running numerator and denominator. -/
def ewmaAdj (span : ℕ) (xs : List ℚ) : List ℚ :=
  let alpha : ℚ := 2 / ((span : ℚ) + 1)
  (xs.foldl (fun (acc : List ℚ × ℚ × ℚ) x =>
    let num := (1 - alpha) * acc.2.1 + x
    let den := (1 - alpha) * acc.2.2 + 1
    (acc.1 ++ [num / den], num, den)) ([], 0, 0)).1

/-- The last row of `calculate_macd` (base_strategy.py lines 256-268). -/
structure MACDValues where
  macdLine : ℚ
  signalLine : ℚ
  histogram : ℚ
deriving DecidableEq

/-- `calculate_macd` over the close history, taking the final values of the
line, the signal line and the histogram (kdj_macd_strategy.py lines 217-221). -/
def calculateMacd (fast slow signalPeriod : ℕ) (prices : List ℚ) : MACDValues :=
  let emaFast := ewmaAdj fast prices
  let emaSlow := ewmaAdj slow prices
  let macdLine := List.zipWith (fun a b => a - b) emaFast emaSlow
  let signalLine := ewmaAdj signalPeriod macdLine
  let hist := List.zipWith (fun a b => a - b) macdLine signalLine
  { macdLine := listLast macdLine
    signalLine := listLast signalLine
    histogram := listLast hist }

/-- `KDJMACDStrategy._kdj_confidence` (lines 177-181). -/
def kdjConfidence (k d j base : ℚ) : ℚ :=
  let kdGap := |k - d| / 100
  let jPenalty := max 0 ((|j - 50| / 50) * (3/10))
  min (max (base * (1 + kdGap) * (1 - jPenalty)) 0) 1

/-- `KDJMACDStrategy._kdj_signal` (lines 161-175): crossover of K over D
against the stored previous values. -/
def kdjSignalOf (s : KDJMACDState) (k d j : ℚ) : SignalType × ℚ :=
  let base := s.params.minConfidence
  if s.lastK ≤ s.lastD ∧ k > d ∧ k < s.params.kdj.overbought then
    (.buy, kdjConfidence k d j base)
  else if s.lastK ≥ s.lastD ∧ k < d ∧ k > s.params.kdj.oversold then
    (.sell, kdjConfidence k d j base)
  else (.hold, 0)

/-- `KDJMACDStrategy._macd_confidence` (lines 195-199). -/
def macdConfidence (macdLine signalLine hist base : ℚ) : ℚ :=
  let crossStrength := |macdLine - signalLine|
  let histFactor := min |hist| 1
  min (base * (1 + min crossStrength 1) * (1 + (3/10) * histFactor)) 1

/-- `KDJMACDStrategy._macd_signal` (lines 183-193). -/
def macdSignalOf (s : KDJMACDState) (macdLine signalLine hist : ℚ) :
    SignalType × ℚ :=
  let base := s.params.minConfidence
  if s.lastMacd ≤ s.lastSignalLine ∧ macdLine > signalLine then
    (.buy, macdConfidence macdLine signalLine hist base)
  else if s.lastMacd ≥ s.lastSignalLine ∧ macdLine < signalLine then
    (.sell, macdConfidence macdLine signalLine hist base)
  else (.hold, 0)

/-- `KDJMACDStrategy._check_stop_loss_take_profit` (lines 284-306). -/
def checkStopLossTakeProfit (s : KDJMACDState) (currentPrice : ℚ) : SignalType :=
  if s.position = 0 ∨ s.entryPrice = 0 then .hold
  else if s.position > 0 then
    let ratio := (currentPrice - s.entryPrice) / s.entryPrice
    if ratio ≤ -s.params.stopLoss then .sell
    else if ratio ≥ s.params.takeProfit then .sell
    else .hold
  else
    let ratio := (s.entryPrice - currentPrice) / s.entryPrice
    if ratio ≤ -s.params.stopLoss then .buy
    else if ratio ≥ s.params.takeProfit then .buy
    else .hold

/-- The joint decision of `analyze` (lines 246-282): agreement of the two
non-HOLD sub-signals emits that direction with the minimum confidence;
every other combination yields HOLD with confidence 0. -/
def combineSignals (kdjSt : SignalType) (kdjConf : ℚ)
    (macdSt : SignalType) (macdConf : ℚ) : SignalType × ℚ :=
  if kdjSt ≠ .hold ∧ kdjSt = macdSt then (kdjSt, min kdjConf macdConf)
  else (.hold, 0)

/-- The fields of the returned `Signal` the claims read (its price is
always `market_data.close`, its symbol the bar's). -/
structure StratSignal where
  sigType : SignalType
  confidence : ℚ
  stopTrigger : Bool
deriving DecidableEq

/-- `min_len = max(slow, signal) + 3` (line 214). -/
def minLen (p : KDJMACDParams) : ℕ :=
  max p.macd.slow p.macd.signalPeriod + 3

/-- The previous-value cache update of `analyze` (lines 253-261 / 272-280). -/
def advanceState (s : KDJMACDState) (kv : KDJValues) (mv : MACDValues) :
    KDJMACDState :=
  { s with
    prevK := kv.k
    prevD := kv.d
    lastK := kv.k
    lastD := kv.d
    lastJ := kv.j
    lastMacd := mv.macdLine
    lastSignalLine := mv.signalLine
    lastHist := mv.histogram }

/-- `KDJMACDStrategy.analyze` (lines 201-282) as a state transformer:
returns the state after the call together with the emitted signal.  The
inactive early return (line 203), the insufficient-history early return
(lines 214-216) and the stop-trigger return (lines 228-243) all leave the
previous-indicator cache untouched; only the two final branches advance it. -/
def analyze (s : KDJMACDState) (bar : MarketBar) : KDJMACDState × StratSignal :=
  if ¬s.isActive then (s, ⟨.hold, 0, false⟩)
  else
    let s1 := updateHistory s bar
    let kv := computeKdj s1
    if s1.closeHistory.length < minLen s1.params then (s1, ⟨.hold, 0, false⟩)
    else
      let mv := calculateMacd s1.params.macd.fast s1.params.macd.slow
        s1.params.macd.signalPeriod s1.closeHistory
      let ks := kdjSignalOf s1 kv.k kv.d kv.j
      let ms := macdSignalOf s1 mv.macdLine mv.signalLine mv.histogram
      let stopSig := checkStopLossTakeProfit s1 bar.close
      if stopSig ≠ .hold then (s1, ⟨stopSig, 1, true⟩)
      else
        let res := combineSignals ks.1 ks.2 ms.1 ms.2
        (advanceState s1 kv mv, ⟨res.1, res.2, false⟩)

/-- A composite-strategy state with 9 bars of flat history: one more bar
makes the KDJ window (period 9) full while the MACD window
(max(13,4) + 3 = 16) is still short. -/
def shortHistoryState : KDJMACDState :=
  { params := botCompositeParams
    closeHistory := [10, 10, 10, 10, 10, 10, 10, 10, 10]
    highHistory := [10, 10, 10, 10, 10, 10, 10, 10, 10]
    lowHistory := [10, 10, 10, 10, 10, 10, 10, 10, 10]
    prevK := 50, prevD := 50, lastK := 50, lastD := 50, lastJ := 50
    lastMacd := 0, lastSignalLine := 0, lastHist := 0
    isActive := true, position := 0, entryPrice := 0 }

/-- A closed candle at 20 after the flat history at 10. -/
def barAt20 : MarketBar :=
  { symbol := "BTC-USDT-SWAP", high := 20, low := 20, close := 20 }

/-! ## Consensus coordinator — main.py `_process_signals` -/

/-- A strategy signal as seen by `_process_signals`: the originating
strategy name (from metadata), direction, confidence and price. -/
structure SubSignal where
  stratName : String
  sigType : SignalType
  confidence : ℚ
  price : ℚ
deriving DecidableEq

/-- The resonance block of `TradingBot._process_signals` (main.py lines
917-968) for independently-run KDJ and MACD strategies: filter each side's
non-HOLD signals, require both sides present, take the latest of each, and
emit a consensus signal only on directional agreement, with the minimum of
the two confidences and the KDJ price (falling back to the MACD price when
the KDJ price is falsy). -/
def processConsensus (signals : List SubSignal) : Option (SignalType × ℚ × ℚ) :=
  let kdjSignals := signals.filter (fun s => s.stratName = "KDJ" ∧ s.sigType ≠ .hold)
  let macdSignals := signals.filter (fun s => s.stratName = "MACD" ∧ s.sigType ≠ .hold)
  match kdjSignals.getLast?, macdSignals.getLast? with
  | some kdj, some macd =>
    if kdj.sigType = macd.sigType ∧ kdj.sigType ≠ .hold then
      some (kdj.sigType, min kdj.confidence macd.confidence,
        if kdj.price ≠ 0 then kdj.price else macd.price)
    else none
  | _, _ => none

/-! ## Strategy parameter update — base_strategy.py / main.py -/

/-- A value in a strategy parameter dict: a number, or a nested indicator
sub-config of numeric entries. -/
inductive ParamValue where
  | num (q : ℚ)
  | sub (entries : List (String × ℚ))
deriving DecidableEq

/-- A strategy parameter dict. -/
abbrev StratParams := List (String × ParamValue)

/-- `dict(new_params.get(key, {}))` for a `"kdj"`/`"macd"` key: the stored
sub-config, or empty when the key is missing.  (In the deployed parameter
sets these keys always hold dicts; on a non-dict value python's `dict(...)`
would raise.) -/
def innerOf (params : StratParams) (k : String) : List (String × ℚ) :=
  match dictGet? params k with
  | some (.sub m) => m
  | _ => []

/-- The deep-merge block of `TradingBot._on_monitoring_params_update`
(main.py lines 1263-1271): fold the patch into a copy of the current
parameters, merging `"kdj"`/`"macd"` dict values into the existing
sub-config and replacing every other key wholesale. -/
def mergeParamsPatch (params updates : StratParams) : StratParams :=
  updates.foldl (fun acc kv =>
    match kv.2 with
    | .sub m =>
      if kv.1 = "kdj" ∨ kv.1 = "macd" then
        dictSet acc kv.1 (.sub (dictUpdate (innerOf acc kv.1) m))
      else dictSet acc kv.1 kv.2
    | .num _ => dictSet acc kv.1 kv.2) params

/-- `BaseStrategy.update_parameters` (base_strategy.py lines 90-96): a
plain `self.parameters.update(parameters)`; the subsequent
`validate_parameters` only logs and never rolls the update back. -/
def updateParameters (params newParams : StratParams) : StratParams :=
  dictUpdate params newParams

/-- `_on_monitoring_params_update` applied to a strategy holding `params`:
build `new_params` by deep-merging the patch, then apply it through
`update_parameters`. -/
def onMonitoringParamsUpdate (params updates : StratParams) : StratParams :=
  updateParameters params (mergeParamsPatch params updates)

/-- The composite strategy's parameter dict after `__init__` merges the
bot's config over the defaults — the dict the C5 round-trip starts from. -/
def deployedStratParams : StratParams :=
  [("kdj", .sub [("period", 9), ("k_smooth", 3), ("d_smooth", 3),
     ("oversold", 20), ("overbought", 80)]),
   ("macd", .sub [("fast", 5), ("slow", 13), ("signal", 4)]),
   ("min_confidence", .num (11/20)),
   ("stop_loss", .num (1/50)),
   ("take_profit", .num (1/25))]

end AutoTrade

namespace AutoTrade

/-! # Theorems -/

/-- Claim C1, as stated by the spec scenario: with the bot's risk
configuration, balance 10000, zero open risk, entry 50000, stop 49000 and
confidence 1, the returned position size would be 0.2.  False on the code:
the max-position-size clamp (notional at most 0.5 x balance = 5000) fires,
since 0.2 x 50000 = 10000 > 5000. -/
theorem claim1_counterexample :
    (calculatePositionSize botRiskConfig 10000 0 50000 49000 1).1 ≠ 1/5 := by
  norm_num [calculatePositionSize, botRiskConfig]

/-- Claim C1, amended: under that same scenario the code returns position
size 0.1 (= 5000 / 50000, the notional cap divided by the entry price), with
risk amount 100. -/
theorem claim1_theorem :
    calculatePositionSize botRiskConfig 10000 0 50000 49000 1 = (1/10, 100) := by
  norm_num [calculatePositionSize, botRiskConfig]

/-- Claim C7, as stated: the risk-amount bound is claimed for arbitrary
confidence.  False on the code: with balance 10000, open risk 700 (so the
bound 10000 x 0.06 - 700 is negative and the claim demands risk amount 0)
and confidence -1, the per-trade risk 10000 x 0.02 x (-1) = -200 makes the
total-risk clip condition fail, and the code returns risk amount -200. -/
theorem claim7_counterexample :
    (10000 : ℚ) * botRiskConfig.maxTotalRisk - 700 < 0 ∧
    (calculatePositionSize botRiskConfig 10000 700 50000 49000 (-1)).2 ≠ 0 := by
  constructor <;> norm_num [calculatePositionSize, botRiskConfig]

/-- Claim C7, amended: for every non-negative balance, non-negative
confidence, positive entry price and stop price distinct from the entry, the
risk amount returned by `calculate_position_size` is at most
balance x maxTotalRisk - currentOpenRisk when that bound is non-negative,
and is 0 when the bound is negative. -/
theorem claim7_theorem (balance totalRisk entry stop conf : ℚ)
    (hb : 0 ≤ balance) (hc : 0 ≤ conf) (he : 0 < entry) (hne : entry ≠ stop) :
    (0 ≤ balance * botRiskConfig.maxTotalRisk - totalRisk →
      (calculatePositionSize botRiskConfig balance totalRisk entry stop conf).2
        ≤ balance * botRiskConfig.maxTotalRisk - totalRisk) ∧
    (balance * botRiskConfig.maxTotalRisk - totalRisk < 0 →
      (calculatePositionSize botRiskConfig balance totalRisk entry stop conf).2 = 0) := by
  have hpr : 0 < |entry - stop| := abs_pos.mpr (sub_ne_zero.mpr hne)
  have hprne : |entry - stop| ≠ 0 := ne_of_gt hpr
  have hr0 : 0 ≤ balance * (1/50) * conf := by positivity
  simp only [calculatePositionSize, botRiskConfig, if_neg hprne]
  split_ifs with h1 h2 h3 h4 h5 <;> constructor
  · -- clip fired, available risk positive, notional cap fired
    intro hA
    have hlt : balance * (1/2) / entry
        < (balance * (3/50) - totalRisk) / |entry - stop| :=
      (div_lt_iff₀ he).mpr h3
    have h6 := mul_lt_mul_of_pos_right hlt hpr
    rw [div_mul_cancel₀ _ hprne] at h6
    linarith
  · intro hA; linarith
  · -- clip fired, available risk positive, no cap: risk amount is the bound
    intro hA; linarith
  · intro hA; linarith
  · -- clip fired, available risk non-positive: position size 0, and the cap
    -- condition 0 * entry > balance * (1/2) is impossible for balance ≥ 0
    intro hA; rw [zero_mul] at h4; linarith
  · intro hA; rw [zero_mul] at h4; linarith
  · intro hA; linarith
  · intro hA; rfl
  · -- no clip (risk within budget), notional cap fired
    intro hA
    push_neg at h1
    have hlt : balance * (1/2) / entry
        < balance * (1/50) * conf / |entry - stop| :=
      (div_lt_iff₀ he).mpr h5
    have h6 := mul_lt_mul_of_pos_right hlt hpr
    rw [div_mul_cancel₀ _ hprne] at h6
    linarith
  · intro hA; push_neg at h1; linarith
  · -- no clip, no cap: the raw per-trade risk is within the budget
    intro hA; push_neg at h1; linarith
  · intro hA; push_neg at h1; linarith

/-- Closed instance of the amended C7 bound at balance 10000, open risk 0,
entry 50000, stop 49000, confidence 1. -/
theorem claim7_witness :
    ((0 : ℚ) ≤ 10000 ∧ (0 : ℚ) ≤ 1 ∧ (0 : ℚ) < 50000 ∧ (50000 : ℚ) ≠ 49000) ∧
    ((0 ≤ (10000 : ℚ) * botRiskConfig.maxTotalRisk - 0 →
      (calculatePositionSize botRiskConfig 10000 0 50000 49000 1).2
        ≤ (10000 : ℚ) * botRiskConfig.maxTotalRisk - 0) ∧
     ((10000 : ℚ) * botRiskConfig.maxTotalRisk - 0 < 0 →
      (calculatePositionSize botRiskConfig 10000 0 50000 49000 1).2 = 0)) :=
  ⟨by norm_num,
   claim7_theorem 10000 0 50000 49000 1 (by norm_num) (by norm_num)
     (by norm_num) (by norm_num)⟩

/-! Association-list bookkeeping lemmas used for the risk-ledger invariant. -/

theorem dictHasKey_false_iff {α : Type} (l : List (String × α)) (k : String) :
    dictHasKey l k = false ↔ k ∉ dictKeys l := by
  induction l with
  | nil => simp [dictHasKey, dictGet?, dictKeys]
  | cons kv rest ih =>
    obtain ⟨k', v'⟩ := kv
    by_cases h : k' = k
    · subst h; simp [dictHasKey, dictGet?, dictKeys]
    · simp [dictHasKey, dictGet?, dictKeys, h, Ne.symm h] at ih ⊢
      exact ih

theorem dictSet_of_not_mem {α : Type} {l : List (String × α)} {k : String}
    (v : α) (h : k ∉ dictKeys l) : dictSet l k v = l ++ [(k, v)] := by
  induction l with
  | nil => simp [dictSet]
  | cons kv rest ih =>
    obtain ⟨k', v'⟩ := kv
    simp only [dictKeys, List.map_cons, List.mem_cons, not_or] at h
    simp [dictSet, Ne.symm h.1, ih (by simpa [dictKeys] using h.2)]

theorem dictErase_of_not_mem {α : Type} {l : List (String × α)} {k : String}
    (h : k ∉ dictKeys l) : dictErase l k = l := by
  induction l with
  | nil => simp [dictErase]
  | cons kv rest ih =>
    obtain ⟨k', v'⟩ := kv
    simp only [dictKeys, List.map_cons, List.mem_cons, not_or] at h
    rw [dictErase, if_neg (Ne.symm h.1), ih (by simpa [dictKeys] using h.2)]

theorem dictKeys_erase_subset {α : Type} {l : List (String × α)} {k a : String}
    (h : a ∈ dictKeys (dictErase l k)) : a ∈ dictKeys l := by
  induction l with
  | nil => simpa [dictErase] using h
  | cons kv rest ih =>
    obtain ⟨k', v'⟩ := kv
    by_cases hk : k' = k
    · rw [dictErase, if_pos hk] at h
      exact List.mem_cons_of_mem _ (ih h)
    · rw [dictErase, if_neg hk] at h
      rcases List.mem_cons.mp h with h1 | h2
      · exact List.mem_cons.mpr (Or.inl h1)
      · exact List.mem_cons_of_mem _ (ih h2)

theorem rmSumRisk_append (l : List (String × PosRisk)) (k : String) (p : PosRisk) :
    rmSumRisk (l ++ [(k, p)]) = rmSumRisk l + p.riskAmount := by
  simp [rmSumRisk]

theorem rmSumRisk_erase {l : List (String × PosRisk)} {k : String} {p : PosRisk}
    (hnd : NodupKeys l) (hg : dictGet? l k = some p) :
    rmSumRisk (dictErase l k) = rmSumRisk l - p.riskAmount := by
  induction l with
  | nil => simp [dictGet?] at hg
  | cons kv rest ih =>
    obtain ⟨k', v'⟩ := kv
    simp only [NodupKeys, dictKeys, List.map_cons, List.nodup_cons] at hnd
    by_cases h : k' = k
    · subst h
      rw [dictGet?, if_pos rfl] at hg
      obtain rfl : v' = p := by injection hg
      rw [dictErase, if_pos rfl,
        dictErase_of_not_mem (by simpa [dictKeys] using hnd.1)]
      simp [rmSumRisk]
    · rw [dictGet?, if_neg h] at hg
      rw [dictErase, if_neg h]
      have := ih (by simpa [NodupKeys, dictKeys] using hnd.2) hg
      simp only [rmSumRisk, List.map_cons, List.sum_cons] at this ⊢
      linarith

theorem nodupKeys_erase {α : Type} {l : List (String × α)} (k : String)
    (h : NodupKeys l) : NodupKeys (dictErase l k) := by
  induction l with
  | nil => simpa [dictErase] using h
  | cons kv rest ih =>
    obtain ⟨k', v'⟩ := kv
    simp only [NodupKeys, dictKeys, List.map_cons, List.nodup_cons] at h
    by_cases hk : k' = k
    · rw [dictErase, if_pos hk]
      exact ih (by simpa [NodupKeys, dictKeys] using h.2)
    · rw [dictErase, if_neg hk]
      have h2 := ih (by simpa [NodupKeys, dictKeys] using h.2)
      simp only [NodupKeys, dictKeys, List.map_cons, List.nodup_cons] at h2 ⊢
      refine ⟨fun hm => h.1 ?_, h2⟩
      exact dictKeys_erase_subset hm

theorem nodupKeys_append {α : Type} {l : List (String × α)} {k : String}
    (p : α) (h : NodupKeys l) (hk : k ∉ dictKeys l) :
    NodupKeys (l ++ [(k, p)]) := by
  simp only [NodupKeys, dictKeys, List.map_append, List.map_cons,
    List.map_nil] at h hk ⊢
  rw [List.nodup_append]
  refine ⟨h, List.nodup_singleton k, ?_⟩
  intro a ha hb
  rw [List.mem_singleton] at hb
  exact hk (hb ▸ ha)

/-- The cumulative-risk invariant (together with key distinctness) is
preserved along any trace that only adds untracked symbols. -/
theorem rmRun_invariant (ops : List RMOp) :
    ∀ s : RMState, s.totalRisk = rmSumRisk s.positions → NodupKeys s.positions →
      rmGoodTrace s ops = true →
      (rmRun s ops).totalRisk = rmSumRisk (rmRun s ops).positions ∧
      NodupKeys (rmRun s ops).positions := by
  induction ops with
  | nil => intro s h hn _; exact ⟨h, hn⟩
  | cons op rest ih =>
    intro s h hn hg
    rw [rmGoodTrace, Bool.and_eq_true] at hg
    obtain ⟨hok, hrest⟩ := hg
    have hstep : (rmStep s op).totalRisk = rmSumRisk (rmStep s op).positions ∧
        NodupKeys (rmStep s op).positions := by
      cases op with
      | updateBalance b => exact ⟨h, hn⟩
      | addPosition sym side size entry stop =>
        have hmem : sym ∉ dictKeys s.positions := by
          rw [rmOpOk, Bool.not_eq_true'] at hok
          exact (dictHasKey_false_iff _ _).mp hok
        constructor
        · show s.totalRisk + _ = rmSumRisk (dictSet s.positions sym _)
          rw [dictSet_of_not_mem _ hmem, rmSumRisk_append, h]
        · show NodupKeys (dictSet s.positions sym _)
          rw [dictSet_of_not_mem _ hmem]
          exact nodupKeys_append _ hn hmem
      | removePosition sym =>
        cases hcase : dictGet? s.positions sym with
        | none =>
          simp only [rmStep, rmRemovePosition, hcase]
          exact ⟨h, hn⟩
        | some p =>
          simp only [rmStep, rmRemovePosition, hcase]
          exact ⟨by rw [rmSumRisk_erase hn hcase, h], nodupKeys_erase _ hn⟩
    exact ih (rmStep s op) hstep.1 hstep.2 hrest

/-- Claim C9, as stated: the cumulative-risk invariant is claimed for every
reachable state.  False on the code: `add_position` overwrites an existing
entry for the same symbol but still adds the full risk amount to
`total_risk`, so adding the same symbol twice leaves total_risk = 2000 while
the positions map holds a single entry of risk 1000. -/
theorem claim9_counterexample :
    (rmRun rmInit rmDoubleAddTrace).totalRisk
      ≠ rmSumRisk (rmRun rmInit rmDoubleAddTrace).positions := by
  simp only [rmDoubleAddTrace, rmRun, rmStep, rmInit, rmUpdateAccountBalance,
    rmAddPosition, rmSumRisk, dictSet]
  norm_num

/-- Claim C9, amended: in every state reachable from the initial state by a
sequence of `update_account_balance`, `add_position` and `remove_position`
calls in which `add_position` is only invoked for symbols not currently
tracked, `total_risk` equals the sum of `risk_amount` over the tracked
positions. -/
theorem claim9_theorem (ops : List RMOp) (h : rmGoodTrace rmInit ops = true) :
    (rmRun rmInit ops).totalRisk = rmSumRisk (rmRun rmInit ops).positions :=
  (rmRun_invariant ops rmInit (by simp [rmInit, rmSumRisk])
    (by simp [rmInit, NodupKeys, dictKeys]) h).1

/-- Claim C3, as stated: the breaker is claimed not to halt trading at a
loss of exactly 25.0%.  False on the code: the condition in
`_monitoring_loop` is `pnl_ratio <= -0.25`, which fires at exactly -0.25. -/
theorem claim3_counterexample : breakerTriggered (-(1/4)) true = true := by
  simp [breakerTriggered]

/-- Claim C3, amended: while the bot is running, the capital-loss breaker
stops trading exactly when pnl_ratio ≤ -0.25 — in particular for every
ratio strictly below -0.25, and also at exactly -0.25. -/
theorem claim3_theorem (r : ℚ) : breakerTriggered r true = true ↔ r ≤ -(1/4) := by
  simp [breakerTriggered]

/-- Closed instance of the amended C3 statement at a 25.01% loss. -/
theorem claim3_witness :
    breakerTriggered (-(2501/10000)) true = true ↔ (-(2501/10000) : ℚ) ≤ -(1/4) :=
  claim3_theorem (-(2501/10000))

/-- Claim C10, as stated: `execute_order` is claimed to raise exactly on
the three listed conditions and to leave the state unchanged whenever it
raises.  False on the code: a buy of -5 units of a symbol held with
quantity 5 and enough cash raises ZeroDivisionError while computing the
new weighted average (division by `old_qty + qty = 0`), after the cash has
already been decremented. -/
theorem claim10_counterexample :
    (pmExecuteOrder pmZeroDivState "BTC-USDT-SWAP" (-5) 2 "buy").2.isSome = true ∧
    ¬(((-5 : ℤ) : ℚ) * 2 > pmZeroDivState.cash) ∧
    (pmExecuteOrder pmZeroDivState "BTC-USDT-SWAP" (-5) 2 "buy").1.cash
      ≠ pmZeroDivState.cash := by
  refine ⟨?_, by norm_num [pmZeroDivState], ?_⟩ <;>
    simp [pmExecuteOrder, pmZeroDivState, dictGet?] <;> norm_num

/-- Claim C10, amended: `execute_order` raises exactly when (buy)
qty x price exceeds available cash or the buy exactly cancels a tracked
position (the ZeroDivisionError in the weighted-average update), (sell) the
symbol is untracked or held quantity is below qty, or the side is invalid;
on every raise except the ZeroDivisionError the cash and positions are
unchanged, while the ZeroDivisionError leaves the cash already decremented
by qty x price and the positions unchanged. -/
theorem claim10_theorem (s : PMState) (symbol : String) (qty : ℤ) (price : ℚ)
    (side : String) :
    ((pmExecuteOrder s symbol qty price side).2.isSome ↔
      (side = "buy" ∧
        (buyInsufficientCash s qty price ∨ buyZeroDivision s symbol qty price)) ∨
      (side = "sell" ∧ sellInsufficientPosition s symbol qty) ∨
      (side ≠ "buy" ∧ side ≠ "sell")) ∧
    ((pmExecuteOrder s symbol qty price side).2.isSome →
      ¬(side = "buy" ∧ buyZeroDivision s symbol qty price) →
      (pmExecuteOrder s symbol qty price side).1 = s) ∧
    (side = "buy" → buyZeroDivision s symbol qty price →
      (pmExecuteOrder s symbol qty price side).1
        = { s with cash := s.cash - (qty : ℚ) * price }) := by
  by_cases hb : side = "buy"
  · subst hb
    rw [pmExecuteOrder, if_pos rfl]
    by_cases hc : (qty : ℚ) * price > s.cash
    · rw [if_pos hc]
      refine ⟨iff_of_true (by simp) (Or.inl ⟨rfl, Or.inl hc⟩), fun _ _ => rfl, ?_⟩
      intro _ hz
      exact absurd hc hz.1
    · rw [if_neg hc]
      dsimp only
      cases hget : dictGet? s.positions symbol with
      | some info =>
        dsimp only
        by_cases hzero : info.qty + qty = 0
        · rw [if_pos hzero]
          refine ⟨iff_of_true (by simp)
            (Or.inl ⟨rfl, Or.inr ⟨hc, info, hget, hzero⟩⟩), ?_, fun _ _ => rfl⟩
          intro _ hno
          exact absurd ⟨rfl, hc, info, hget, hzero⟩ hno
        · rw [if_neg hzero]
          refine ⟨iff_of_false (by simp) ?_, fun h _ => by simp at h, ?_⟩
          · rintro (⟨-, h | ⟨-, info2, hget2, hz2⟩⟩ | ⟨h, -⟩ | ⟨h, -⟩)
            · exact hc h
            · rw [hget] at hget2
              injection hget2 with h3
              exact hzero (h3 ▸ hz2)
            · exact absurd h (by simp)
            · exact h rfl
          · intro _ hz
            obtain ⟨-, info2, hget2, hz2⟩ := hz
            rw [hget] at hget2
            injection hget2 with h3
            exact absurd (h3 ▸ hz2) hzero
      | none =>
        dsimp only
        refine ⟨iff_of_false (by simp) ?_, fun h _ => by simp at h, ?_⟩
        · rintro (⟨-, h | ⟨-, info2, hget2, -⟩⟩ | ⟨h, -⟩ | ⟨h, -⟩)
          · exact hc h
          · rw [hget] at hget2; exact Option.noConfusion hget2
          · exact absurd h (by simp)
          · exact h rfl
        · intro _ hz
          obtain ⟨-, info2, hget2, -⟩ := hz
          rw [hget] at hget2
          exact Option.noConfusion hget2
  · by_cases hs : side = "sell"
    · subst hs
      rw [pmExecuteOrder, if_neg hb, if_pos rfl]
      cases hget : dictGet? s.positions symbol with
      | none =>
        dsimp only
        exact ⟨iff_of_true (by simp) (Or.inr (Or.inl ⟨rfl, Or.inl hget⟩)),
          fun _ _ => rfl, fun h => absurd h hb⟩
      | some info =>
        dsimp only
        by_cases hlt : info.qty < qty
        · rw [if_pos hlt]
          exact ⟨iff_of_true (by simp) (Or.inr (Or.inl ⟨rfl, Or.inr ⟨info, hget, hlt⟩⟩)),
            fun _ _ => rfl, fun h => absurd h hb⟩
        · rw [if_neg hlt]
          refine ⟨iff_of_false (by simp) ?_, fun h _ => by simp at h,
            fun h => absurd h hb⟩
          rintro (⟨h, -⟩ | ⟨-, hget2 | ⟨info2, hget2, hlt2⟩⟩ | ⟨-, h⟩)
          · exact absurd h (by simp)
          · rw [hget] at hget2; exact Option.noConfusion hget2
          · rw [hget] at hget2
            injection hget2 with h3
            exact hlt (h3 ▸ hlt2)
          · exact h rfl
    · rw [pmExecuteOrder, if_neg hb, if_neg hs]
      exact ⟨iff_of_true (by simp) (Or.inr (Or.inr ⟨hb, hs⟩)),
        fun _ _ => rfl, fun h => absurd h hb⟩

/-- Closed instance of the amended C10 characterization: a sell of an
untracked symbol from a fresh ledger errors and leaves the state unchanged. -/
theorem claim10_witness :
    ((pmExecuteOrder (pmInit 1000) "BTC-USDT-SWAP" 1 50 "sell").2.isSome ↔
      ("sell" = "buy" ∧
        (buyInsufficientCash (pmInit 1000) 1 50 ∨
          buyZeroDivision (pmInit 1000) "BTC-USDT-SWAP" 1 50)) ∨
      ("sell" = "sell" ∧ sellInsufficientPosition (pmInit 1000) "BTC-USDT-SWAP" 1) ∨
      (("sell" : String) ≠ "buy" ∧ ("sell" : String) ≠ "sell")) ∧
    ((pmExecuteOrder (pmInit 1000) "BTC-USDT-SWAP" 1 50 "sell").2.isSome →
      ¬(("sell" : String) = "buy" ∧ buyZeroDivision (pmInit 1000) "BTC-USDT-SWAP" 1 50) →
      (pmExecuteOrder (pmInit 1000) "BTC-USDT-SWAP" 1 50 "sell").1 = pmInit 1000) ∧
    (("sell" : String) = "buy" → buyZeroDivision (pmInit 1000) "BTC-USDT-SWAP" 1 50 →
      (pmExecuteOrder (pmInit 1000) "BTC-USDT-SWAP" 1 50 "sell").1
        = { pmInit 1000 with cash := (pmInit 1000).cash - ((1 : ℤ) : ℚ) * 50 }) :=
  claim10_theorem (pmInit 1000) "BTC-USDT-SWAP" 1 50 "sell"

/-- Looking up the key just set returns the value just set. -/
theorem dictGet?_dictSet {α : Type} (l : List (String × α)) (k : String) (v : α) :
    dictGet? (dictSet l k v) k = some v := by
  induction l with
  | nil => simp [dictSet, dictGet?]
  | cons kv rest ih =>
    obtain ⟨k', v'⟩ := kv
    by_cases h : k' = k
    · subst h; simp [dictSet, dictGet?]
    · rw [dictSet, if_neg h, dictGet?, if_neg h]
      exact ih

/-- Claim C2, as stated: after a gateway failure the order is claimed to
leave the active set and be appended to history.  False on the code: the
failure branch of `submit_order` (lines 252-264) sets REJECTED but neither
removes the order from `active_orders` nor appends it to `order_history` —
as shown on a freshly created order whose submission fails. -/
theorem claim2_counterexample :
    (createOrder (omInit (pmInit 10000)) "BTC-USDT-SWAP" "buy" "market" 1
        none "order1" true true).isOk = true ∧
    (dictGet? omSubmitFailScenario.1.activeOrders "order1").map Order.status
      = some .rejected ∧
    dictHasKey omSubmitFailScenario.1.activeOrders "order1" = true ∧
    omSubmitFailScenario.1.orderHistory = [] := by
  decide

/-- Claim C2, amended: on a gateway failure `submit_order` sets the order's
status to REJECTED, but the order remains a member of the active-orders set
and the order history is unchanged (nothing is appended); the returned
result reports failure. -/
theorem claim2_theorem (s : OMState) (oid : String) (o : Order) (err : String)
    (h : dictGet? s.activeOrders oid = some o) :
    (dictGet? (submitOrder s oid (.error err)).1.activeOrders oid).map Order.status
      = some .rejected ∧
    (submitOrder s oid (.error err)).1.orderHistory = s.orderHistory ∧
    (submitOrder s oid (.error err)).2 = false := by
  rw [submitOrder, h]
  exact ⟨by rw [dictGet?_dictSet]; rfl, rfl, rfl⟩

/-- Closed instance of the amended C2 behaviour on a one-order state. -/
theorem claim2_witness :
    (dictGet? (submitOrder omOneOrderState "order1" (.error "network error")).1.activeOrders
        "order1").map Order.status = some .rejected ∧
    (submitOrder omOneOrderState "order1" (.error "network error")).1.orderHistory
      = omOneOrderState.orderHistory ∧
    (submitOrder omOneOrderState "order1" (.error "network error")).2 = false :=
  claim2_theorem omOneOrderState "order1" pendingOrder "network error"
    (by simp [omOneOrderState, dictGet?])

/-- Claim C4 at the failing input: a SUBMITTED buy order polled as
`filled` is removed from the active set and moved to history with status
FILLED, but the Portfolio Ledger is left completely unchanged — the fill
is never applied, because `_update_portfolio` calls
`portfolio_manager.open_position`, which does not exist on
`PortfolioManager`, and the AttributeError is swallowed. -/
theorem claim4_theorem :
    dictHasKey (checkOrderStatus omMonitorState "order2" (some filledPoll)).activeOrders
      "order2" = false ∧
    (checkOrderStatus omMonitorState "order2" (some filledPoll)).orderHistory.map
      Order.status = [.filled] ∧
    (checkOrderStatus omMonitorState "order2" (some filledPoll)).portfolio
      = omMonitorState.portfolio := by
  decide

/-- Claim C5: applying the monitoring-panel parameter update with the
partial patch macd.fast = 8 to the deployed composite parameters deep-merges
the nested macd sub-config — fast becomes 8, slow/signal stay 13/4 — and
leaves every other key untouched. -/
theorem claim5_theorem :
    onMonitoringParamsUpdate deployedStratParams [("macd", .sub [("fast", 8)])]
      = [("kdj", .sub [("period", 9), ("k_smooth", 3), ("d_smooth", 3),
           ("oversold", 20), ("overbought", 80)]),
         ("macd", .sub [("fast", 8), ("slow", 13), ("signal", 4)]),
         ("min_confidence", .num (11/20)),
         ("stop_loss", .num (1/50)),
         ("take_profit", .num (1/25))] := by
  rfl

/-- Claim C6, as stated: on insufficient history `analyze` is claimed to
still advance the stored previous indicator values.  False on the code:
the insufficient-history return at line 216 precedes the cache update, so
with 10 bars (KDJ window full, MACD window of 16 not yet) the call returns
HOLD with confidence 0 while `last_k` stays at 50 even though the freshly
computed K is 200/3. -/
theorem claim6_counterexample :
    (analyze shortHistoryState barAt20).2 = ⟨.hold, 0, false⟩ ∧
    (analyze shortHistoryState barAt20).1.lastK = shortHistoryState.lastK ∧
    (analyze shortHistoryState barAt20).1.lastK
      ≠ (computeKdj (updateHistory shortHistoryState barAt20)).k := by
  refine ⟨?_, ?_, ?_⟩ <;>
    · simp [analyze, updateHistory, computeKdj, pushBounded, listMinLast,
        listMaxLast, listLast, minLen, shortHistoryState, barAt20,
        botCompositeParams, maxHistorySize]
      try norm_num

/-- Claim C6, amended: for every active composite-strategy state whose
history after appending the bar is still shorter than max(slow, signal) + 3,
`analyze` returns HOLD with confidence 0 and a state identical to the input
except for the appended histories — the stored previous K/D/MACD/signal
values are left unchanged, not advanced. -/
theorem claim6_theorem (s : KDJMACDState) (bar : MarketBar)
    (hact : s.isActive = true)
    (hlen : (updateHistory s bar).closeHistory.length < minLen s.params) :
    analyze s bar = (updateHistory s bar, ⟨.hold, 0, false⟩) := by
  rw [analyze, if_neg (by simp [hact])]
  have hlen1 : (updateHistory s bar).closeHistory.length
      < minLen (updateHistory s bar).params := by
    simpa [updateHistory] using hlen
  simp only [if_pos hlen1]

/-- Closed instance of the amended C6 statement on the 9-bar state. -/
theorem claim6_witness :
    shortHistoryState.isActive = true ∧
    (updateHistory shortHistoryState barAt20).closeHistory.length
      < minLen shortHistoryState.params ∧
    analyze shortHistoryState barAt20
      = (updateHistory shortHistoryState barAt20, ⟨.hold, 0, false⟩) :=
  ⟨rfl,
   by norm_num [updateHistory, pushBounded, shortHistoryState, barAt20,
     minLen, botCompositeParams, maxHistorySize],
   claim6_theorem shortHistoryState barAt20 rfl
     (by norm_num [updateHistory, pushBounded, shortHistoryState, barAt20,
       minLen, botCompositeParams, maxHistorySize])⟩

/-- Claim C8: in the composite joint decision and in the consensus path
over independently-run KDJ and MACD strategies (no stop trigger), two
non-HOLD sub-signals of the same direction emit that direction with the
minimum of the two confidences, and every other combination emits nothing,
for all confidence values. -/
theorem claim8_theorem (k m : SignalType) (ck cm pk pm : ℚ) :
    (k ≠ .hold → k = m →
      combineSignals k ck m cm = (k, min ck cm) ∧
      processConsensus [⟨"KDJ", k, ck, pk⟩, ⟨"MACD", m, cm, pm⟩]
        = some (k, min ck cm, if pk ≠ 0 then pk else pm)) ∧
    (¬(k ≠ .hold ∧ k = m) →
      combineSignals k ck m cm = (.hold, 0) ∧
      processConsensus [⟨"KDJ", k, ck, pk⟩, ⟨"MACD", m, cm, pm⟩] = none) := by
  cases k <;> cases m <;>
    simp [combineSignals, processConsensus, List.filter, List.getLast?]

/-- Closed instance of C8: agreeing BUY sub-signals with confidences 3/5
and 1/2 emit BUY with confidence min(3/5, 1/2) on both paths. -/
theorem claim8_witness :
    combineSignals .buy (3/5) .buy (1/2) = (.buy, min (3/5 : ℚ) (1/2)) ∧
    processConsensus [⟨"KDJ", .buy, 3/5, 100⟩, ⟨"MACD", .buy, 1/2, 0⟩]
      = some (.buy, min (3/5 : ℚ) (1/2), if (100 : ℚ) ≠ 0 then (100 : ℚ) else 0) :=
  (claim8_theorem .buy .buy (3/5) (1/2) 100 0).1 (by decide) rfl

/-- Closed instance of the amended C9 invariant on a concrete trace with
adds, a re-add after removal, and a removal of an untracked symbol. -/
theorem claim9_witness :
    rmGoodTrace rmInit rmGoodExampleTrace = true ∧
    (rmRun rmInit rmGoodExampleTrace).totalRisk
      = rmSumRisk (rmRun rmInit rmGoodExampleTrace).positions :=
  ⟨by simp [rmGoodExampleTrace, rmGoodTrace, rmOpOk, rmStep, rmInit,
      rmUpdateAccountBalance, rmAddPosition, rmRemovePosition, dictHasKey,
      dictGet?, dictSet, dictErase],
   claim9_theorem rmGoodExampleTrace
     (by simp [rmGoodExampleTrace, rmGoodTrace, rmOpOk, rmStep, rmInit,
       rmUpdateAccountBalance, rmAddPosition, rmRemovePosition, dictHasKey,
       dictGet?, dictSet, dictErase])⟩

end AutoTrade
